import Mathlib

/-!
Verification of the `release-changelog` CLI (release-changelog.go) against its
natural-language specification.  The Go program is shallowly embedded: pure
computations become Lean functions, each fallible external call becomes an
explicit `Except`-valued parameter describing that call's outcome, and the
observable behaviour of `main` (publish requests issued, standard output,
fatal aborts) is collected in explicit result records.
-/

namespace ReleaseChangelog

/-- Embeds Go `type User struct { Login string }`. -/
structure User where
  login : String
deriving DecidableEq, Repr, Inhabited

/-- Embeds Go `type Author struct { User User }`. -/
structure Author where
  user : User
deriving DecidableEq, Repr, Inhabited

/-- Embeds Go `type AssociatedPullRequest struct { Number int }`. -/
structure AssociatedPullRequest where
  number : Int
deriving DecidableEq, Repr, Inhabited

/-- Embeds Go `type Commit struct` with headline, abbreviated oid, author and
associated pull requests. -/
structure Commit where
  messageHeadline : String
  abbreviatedOid : String
  author : Author
  associatedPullRequests : List AssociatedPullRequest
deriving DecidableEq, Repr, Inhabited

/-- Embeds Go `type CommitNodes struct { Commit Commit }`. -/
structure CommitNodes where
  commit : Commit
deriving DecidableEq, Repr, Inhabited

/-- Embeds Go `type Commits struct { Nodes []CommitNodes }`. -/
structure Commits where
  nodes : List CommitNodes
deriving DecidableEq, Repr, Inhabited

/-- Embeds Go `type PullRequest struct` (title, createdAt, baseRefName,
headRefOid, author, commits). -/
structure PullRequest where
  title : String
  createdAt : String
  baseRefName : String
  headRefOid : String
  authorLogin : String
  commits : Commits
deriving DecidableEq, Repr, Inhabited

/-- Embeds Go `type Repository struct` (name and pull request; the `Object`
field is only used by the npm-package-name query and is omitted here). -/
structure Repository where
  name : String
  pullRequest : PullRequest
deriving DecidableEq, Repr, Inhabited

/-- Embeds Go `type Release struct` — the ReleaseRecord sent to the releases
endpoint. -/
structure Release where
  tagName : String
  targetCommitish : String
  name : String
  body : String
deriving DecidableEq, Repr, Inhabited

/-- Embeds Go `type PR struct { Number int }` — one element of the
commit-to-pull-request lookup response. -/
structure PR where
  number : Int
deriving DecidableEq, Repr, Inhabited

/-- Embeds Go `type DistTags struct { Latest string }`. -/
structure DistTags where
  latest : String
deriving DecidableEq, Repr, Inhabited

/-- Embeds Go `type RegistryResponse struct { DistTags DistTags }`. -/
structure RegistryResponse where
  distTags : DistTags
deriving DecidableEq, Repr, Inhabited

/-- The one line the changelog loop appends for a commit node:
`output += "* " + node.Commit.MessageHeadline + " @" + node.Commit.Author.User.Login + "\n"`. -/
def commitLine (c : Commit) : String :=
  "* " ++ c.messageHeadline ++ " @" ++ c.author.user.login ++ "\n"

/-- Embeds the changelog-building loop of `main` (release-changelog.go lines
216-219): starting from the empty string, append one formatted line per commit
node, in input order. -/
def buildChangelog (nodes : List CommitNodes) : String :=
  nodes.foldl (fun out node => out ++ commitLine node.commit) ""

/-- The changelog as an explicit list of lines, one per commit node in input
order; used to state what `buildChangelog` concatenates. -/
def changelogLines (nodes : List CommitNodes) : List String :=
  nodes.map (fun node => commitLine node.commit)

/-- Concatenation of a list of strings with no separator. -/
def joinAll : List String → String
  | [] => ""
  | s :: rest => s ++ joinAll rest

/-- Embeds the pure core of Go `getPullRequestNumber` (lines 361-371): start
from `pr := 0`; if the decoded list is non-empty take the first element's
number; return `pr`. -/
def getPullRequestNumber (prs : List PR) : Int :=
  if 0 < prs.length then (prs.getD 0 { number := 0 }).number else 0

/-- Embeds the pure core of Go `getLatestVersion` (line 304): the decoded
registry response's `dist-tags.latest` field is returned verbatim. -/
def getLatestVersion (r : RegistryResponse) : String :=
  r.distTags.latest

/-- Embeds line 198 of `main`: `tag = "v" + version`. -/
def resolveTag (version : String) : String :=
  "v" ++ version

/-- Embeds lines 225-227 of `main`: `if targetCommitish == "" { targetCommitish
= repository.PullRequest.BaseRefName }`. -/
def resolveTargetCommitish (targetCommitish baseRefName : String) : String :=
  if targetCommitish = "" then baseRefName else targetCommitish

/-- Modelled from the spec: the hosting service's GraphQL semantics of the
`commits(first: 50)` argument in `PullRequestQuery` (release-changelog.go line
26) — the server returns at most the first 50 commit nodes of the pull
request, in order, truncating silently.  The query text is in src/ but the
server-side truncation it requests is not, so it is modelled here per spec
section 4.2. -/
def fetchedCommitNodes (allNodes : List CommitNodes) : List CommitNodes :=
  allNodes.take 50

/-- Decides whether the character list `sub` occurs at the start of `s`. -/
def isPrefixAt : List Char → List Char → Bool
  | [], _ => true
  | _ :: _, [] => false
  | a :: as, b :: bs => a = b && isPrefixAt as bs

/-- Decides whether the character list `sub` occurs anywhere inside `s`. -/
def containsSub (sub : List Char) : List Char → Bool
  | [] => isPrefixAt sub []
  | c :: rest => isPrefixAt sub (c :: rest) || containsSub sub rest

/-- Embeds Go `strings.Contains(s, sub)`: substring containment. -/
def strContains (s sub : String) : Bool :=
  containsSub sub.data s.data

/-- One read attempt on the trigger channel: `none` models a read error
(`err != nil` from `ReadMessage`), `some payload` a successfully read message
value. -/
abbrev ReadResult := Option String

/-- Embeds the read loop of `subscribeToKafkaForRepoMessage` (lines 259-268)
over a finite prefix of the message stream: read one message; on a read error
continue silently; if the payload contains `repo` as a substring, break; else
continue.  Returns `some n` when the loop unblocks after consuming exactly `n`
reads, and `none` when the given stream prefix is exhausted without a match
(the real loop would still be blocked). -/
def readLoop (repo : String) : List ReadResult → Option Nat
  | [] => none
  | r :: rest =>
    match r with
    | some payload =>
      if strContains payload repo then some 1
      else (readLoop repo rest).map (· + 1)
    | none => (readLoop repo rest).map (· + 1)

/-- Outcome of the Go `publishRelease` function (lines 399-424), distinguishing
an error returned to the caller from a `log.Fatal` process abort. -/
inductive PublishOutcome where
  | errReturn (e : String)
  | fatalAbort (e : String)
  | success
deriving DecidableEq, Repr

/-- True exactly when `publishRelease` returned an error to its caller. -/
def PublishOutcome.isErrorReturn : PublishOutcome → Bool
  | .errReturn _ => true
  | _ => false

/-- A transport-level HTTP response as received by `client.Do`: status code and
body, neither of which `publishRelease` inspects. -/
structure HttpResponse where
  statusCode : Nat
  body : String
deriving DecidableEq, Repr, Inhabited

/-- Embeds Go `publishRelease` (lines 399-424) with each fallible step's
outcome made explicit: `json.Marshal` (error is returned), `http.NewRequest`
(error is `log.Fatal`, aborting the process), `client.Do` (error is returned);
any received response is followed only by `resp.Body.Close()` and `return
nil`. -/
def publishRelease (marshalResult : Except String String)
    (newRequestResult : Except String Unit)
    (doResult : Except String HttpResponse) : PublishOutcome :=
  match marshalResult with
  | .error e => .errReturn e
  | .ok _ =>
    match newRequestResult with
    | .error e => .fatalAbort e
    | .ok _ =>
      match doResult with
      | .error e => .errReturn e
      | .ok _ => .success

/-- Observable result of the release block of `main` (lines 216-241): the
publish attempts issued (calls to `publishRelease`, each carrying the record),
the ReleaseRecord constructed (if control reached its construction), what was
printed to standard output, and the `log.Fatal` message if the process
aborted. -/
structure StageOutput where
  publishes : List Release
  built : Option Release
  stdout : String
  fatalMsg : Option String
deriving DecidableEq, Repr

/-- Embeds the `pr > 0` block of `main` (lines 211-241): build the changelog;
fatal if the tag is empty; default the target commitish to the pull request's
base branch; construct the Release; publish unless dry-run (a publish
transport error is `log.Fatal`); print `owner/repo - targetCommitish:tag`
(with `Println`'s newline) followed by the changelog body.
`publishTransport` is the outcome of the `publishRelease` call, were it
made. -/
def releaseStage (owner repo tag targetCommitish : String) (dryRun : Bool)
    (repository : Repository) (publishTransport : Except String Unit) :
    StageOutput :=
  let output := buildChangelog repository.pullRequest.commits.nodes
  if tag = "" then
    { publishes := [], built := none, stdout := "",
      fatalMsg := some "Need to provide tag to publish release" }
  else
    let tc := resolveTargetCommitish targetCommitish repository.pullRequest.baseRefName
    let release : Release :=
      { tagName := tag, targetCommitish := tc, name := tag, body := output }
    if dryRun then
      { publishes := [], built := some release,
        stdout := owner ++ "/" ++ repo ++ " - " ++ tc ++ ":" ++ tag ++ "\n" ++ output,
        fatalMsg := none }
    else
      match publishTransport with
      | .error e =>
        { publishes := [release], built := some release, stdout := "",
          fatalMsg := some e }
      | .ok _ =>
        { publishes := [release], built := some release,
          stdout := owner ++ "/" ++ repo ++ " - " ++ tc ++ ":" ++ tag ++ "\n" ++ output,
          fatalMsg := none }

/-- Embeds lines 202-208 of `main`: the commit-to-pull-request lookup runs only
when no explicit PR number was supplied (`pr == 0`); a supplied number (even a
negative one) is kept as-is. -/
def resolvePR (explicitPR : Int) (prs : List PR) : Int :=
  if explicitPR = 0 then getPullRequestNumber prs else explicitPR

/-- Observable result of `main` from pull-request resolution onward: whether
the PR-details query was issued, plus the fields of `StageOutput`. -/
structure MainOutput where
  detailsFetched : Bool
  publishes : List Release
  built : Option Release
  stdout : String
  fatalMsg : Option String
deriving DecidableEq, Repr

/-- Embeds lines 210-243 of `main`: when the resolved PR number is positive,
fetch the pull-request details (a fetch error is `log.Fatal`) and run the
release block; otherwise `main` falls through to its end with nothing fetched,
built, published or printed. -/
def mainAfterResolution (owner repo : String) (prNum : Int) (tag tc : String)
    (dryRun : Bool) (fetchResult : Except String Repository)
    (publishTransport : Except String Unit) : MainOutput :=
  if 0 < prNum then
    match fetchResult with
    | .error e =>
      { detailsFetched := true, publishes := [], built := none, stdout := "",
        fatalMsg := some e }
    | .ok repository =>
      let s := releaseStage owner repo tag tc dryRun repository publishTransport
      { detailsFetched := true, publishes := s.publishes, built := s.built,
        stdout := s.stdout, fatalMsg := s.fatalMsg }
  else
    { detailsFetched := false, publishes := [], built := none, stdout := "",
      fatalMsg := none }

/-- Process exit status of the modelled run: `log.Fatal` exits non-zero, every
other path (including falling off the end of `main`) exits 0. -/
def exitCode (m : MainOutput) : Nat :=
  if m.fatalMsg.isSome then 1 else 0

/-- Sample commit node used by concrete witnesses. -/
def sampleNode (headline login : String) : CommitNodes :=
  { commit :=
    { messageHeadline := headline, abbreviatedOid := "abc1234",
      author := { user := { login := login } },
      associatedPullRequests := [{ number := 42 }] } }

/-- The spec's PR #42 scenario commit list. -/
def exNodes : List CommitNodes :=
  [sampleNode "fix bug" "alice", sampleNode "add test" "bob"]

/-- A concrete repository used by witnesses. -/
def sampleRepository : Repository :=
  { name := "widget",
    pullRequest :=
      { title := "Release 42", createdAt := "2020-01-01T00:00:00Z",
        baseRefName := "main", headRefOid := "deadbeef",
        authorLogin := "alice", commits := { nodes := exNodes } } }

theorem foldl_commitLine (nodes : List CommitNodes) (init : String) :
    nodes.foldl (fun out node => out ++ commitLine node.commit) init
      = init ++ joinAll (changelogLines nodes) := by
  induction nodes generalizing init with
  | nil => simp [changelogLines, joinAll, String.append_empty]
  | cons n rest ih =>
    rw [List.foldl_cons, ih]
    show (init ++ commitLine n.commit) ++ joinAll (changelogLines rest)
      = init ++ joinAll (changelogLines (n :: rest))
    rw [String.append_assoc]
    rfl

/-- C1: `buildChangelog` on a commit list of length N is exactly the
concatenation, in input order and with no extra separator, of the N lines
`"* " ++ headline ++ " @" ++ authorLogin ++ "\n"`; being a pure function, the
same input always yields identical output. -/
theorem buildChangelog_spec (nodes : List CommitNodes) :
    buildChangelog nodes = joinAll (changelogLines nodes) ∧
    (changelogLines nodes).length = nodes.length ∧
    ∀ (i : Nat) (h : i < nodes.length),
      (changelogLines nodes)[i]? =
        some ("* " ++ (nodes[i]).commit.messageHeadline ++ " @"
          ++ (nodes[i]).commit.author.user.login ++ "\n") := by
  refine ⟨?_, ?_, ?_⟩
  · have h := foldl_commitLine nodes ""
    simpa [buildChangelog] using h
  · simp [changelogLines]
  · intro i h
    simp [changelogLines, List.getElem?_map, List.getElem?_eq_getElem h, commitLine]

/-- Witness for C1 at the spec's PR #42 scenario: commits
`[fix bug/alice, add test/bob]` yield the body
`"* fix bug @alice\n* add test @bob\n"`, whose first line is
`"* fix bug @alice\n"`. -/
theorem buildChangelog_spec_witness :
    buildChangelog exNodes = "* fix bug @alice\n* add test @bob\n" ∧
    (changelogLines exNodes)[0]? = some "* fix bug @alice\n" := by
  have h := buildChangelog_spec exNodes
  refine ⟨h.1.trans (by decide), ?_⟩
  have h2 := h.2.2 0 (by decide)
  simpa using h2

/-- C3: the pure core of `getPullRequestNumber` returns 0 on an empty decoded
list, the first element's number on a non-empty list, and its result is
independent of everything past the first element. -/
theorem getPullRequestNumber_spec (p : PR) (rest rest2 : List PR) :
    getPullRequestNumber [] = 0 ∧
    getPullRequestNumber (p :: rest) = p.number ∧
    getPullRequestNumber (p :: rest) = getPullRequestNumber (p :: rest2) := by
  refine ⟨rfl, ?_, ?_⟩ <;> simp [getPullRequestNumber]

/-- C4: with no explicit tag, the release tag is the literal `"v" ++ version`
where `version` is the registry's `dist-tags.latest` field taken verbatim; a
version already starting with `"v"` yields a `"vv"`-prefixed tag, and the
spec's scenario version `"2.3.0"` yields `"v2.3.0"`. -/
theorem resolveTag_spec (r : RegistryResponse) (rest : String) :
    resolveTag (getLatestVersion r) = "v" ++ r.distTags.latest ∧
    resolveTag ("v" ++ rest) = "vv" ++ rest ∧
    resolveTag "2.3.0" = "v2.3.0" := by
  refine ⟨rfl, ?_, rfl⟩
  show "v" ++ ("v" ++ rest) = "vv" ++ rest
  have h : ("v" : String) ++ "v" = "vv" := by decide
  rw [← String.append_assoc, h]

/-- C9: the PR-details fetch requests at most 50 commits: the fetched list is
the first 50 nodes in order, the changelog built from it has at most 50 lines,
and a pull request with more than 50 commits is truncated to exactly its first
50 with no error anywhere (the truncating fetch is a total function). -/
theorem fetchedCommitNodes_cap (all : List CommitNodes) :
    fetchedCommitNodes all = all.take 50 ∧
    (fetchedCommitNodes all).length ≤ 50 ∧
    (changelogLines (fetchedCommitNodes all)).length ≤ 50 ∧
    (50 < all.length → (fetchedCommitNodes all).length = 50) := by
  refine ⟨rfl, ?_, ?_, ?_⟩
  · simp [fetchedCommitNodes]
  · simp [fetchedCommitNodes, changelogLines]
  · intro h
    simp [fetchedCommitNodes]
    omega

/-- Witness for C9: a 51-commit pull request truncates to exactly 50 nodes. -/
theorem fetchedCommitNodes_cap_witness :
    50 < (List.replicate 51 (sampleNode "m" "u")).length ∧
    (fetchedCommitNodes (List.replicate 51 (sampleNode "m" "u"))).length = 50 :=
  ⟨by simp, (fetchedCommitNodes_cap (List.replicate 51 (sampleNode "m" "u"))).2.2.2 (by simp)⟩

/-- C2: with the same resolved inputs, a dry-run invocation issues no publish
request and prints exactly the standard output of a real successful
invocation; when the tag is non-empty that output is the line
`owner/repo - targetCommitish:tag` followed by the full changelog body. -/
theorem dryRun_equiv (owner repo tag tc : String) (repository : Repository)
    (pt : Except String Unit) :
    (releaseStage owner repo tag tc true repository pt).publishes = [] ∧
    (releaseStage owner repo tag tc true repository pt).stdout
      = (releaseStage owner repo tag tc false repository (.ok ())).stdout ∧
    (tag ≠ "" →
      (releaseStage owner repo tag tc true repository pt).stdout
        = owner ++ "/" ++ repo ++ " - "
          ++ resolveTargetCommitish tc repository.pullRequest.baseRefName
          ++ ":" ++ tag ++ "\n"
          ++ buildChangelog repository.pullRequest.commits.nodes) := by
  by_cases h : tag = "" <;> simp [releaseStage, h]

/-- Witness for C2's conditional part at a concrete run: dry-run output is the
header line followed by the changelog body. -/
theorem dryRun_equiv_witness :
    (releaseStage "acme" "widget" "v2.3.0" "" true sampleRepository (.ok ())).stdout
      = "acme/widget - main:v2.3.0\n* fix bug @alice\n* add test @bob\n" := by
  have h := (dryRun_equiv "acme" "widget" "v2.3.0" "" sampleRepository (.ok ())).2.2
    (by decide)
  rw [h]
  decide

/-- C5: the constructed ReleaseRecord's targetCommitish is the pull request's
base branch when no explicit targetRef was supplied (empty flag), and the
explicit value unchanged otherwise. -/
theorem targetCommitish_default (owner repo tag tc : String) (d : Bool)
    (repository : Repository) (pt : Except String Unit) (r : Release)
    (hr : (releaseStage owner repo tag tc d repository pt).built = some r) :
    (tc = "" → r.targetCommitish = repository.pullRequest.baseRefName) ∧
    (tc ≠ "" → r.targetCommitish = tc) := by
  by_cases h : tag = ""
  · simp [releaseStage, h] at hr
  · by_cases hd : d
    · simp [releaseStage, h, hd] at hr
      constructor <;> intro htc <;>
        simp [← hr, resolveTargetCommitish, htc]
    · cases pt with
      | error e =>
        simp [releaseStage, h, hd] at hr
        constructor <;> intro htc <;>
          simp [← hr, resolveTargetCommitish, htc]
      | ok u =>
        simp [releaseStage, h, hd] at hr
        constructor <;> intro htc <;>
          simp [← hr, resolveTargetCommitish, htc]

/-- Witness for C5: with no explicit targetRef, the concrete built record
points at the pull request's base branch `"main"`. -/
theorem targetCommitish_default_witness :
    ({ tagName := "v1", targetCommitish := "main", name := "v1",
       body := "* fix bug @alice\n* add test @bob\n" } : Release).targetCommitish
      = sampleRepository.pullRequest.baseRefName :=
  (targetCommitish_default "acme" "widget" "v1" "" true sampleRepository (.ok ())
    { tagName := "v1", targetCommitish := "main", name := "v1",
      body := "* fix bug @alice\n* add test @bob\n" } (by decide)).1 rfl

/-- C7: an empty tag at release-construction time is a fatal abort before any
ReleaseRecord is built, anything printed, or any publish issued; consequently
every publish attempt carries the (non-empty) tag as its tagName. -/
theorem emptyTag_fatal (owner repo tag tc : String) (d : Bool)
    (repository : Repository) (pt : Except String Unit) :
    ((releaseStage owner repo "" tc d repository pt).publishes = [] ∧
     (releaseStage owner repo "" tc d repository pt).built = none ∧
     (releaseStage owner repo "" tc d repository pt).stdout = "" ∧
     (releaseStage owner repo "" tc d repository pt).fatalMsg
       = some "Need to provide tag to publish release") ∧
    ∀ r ∈ (releaseStage owner repo tag tc d repository pt).publishes,
      r.tagName = tag ∧ tag ≠ "" := by
  constructor
  · simp [releaseStage]
  · intro r hr
    by_cases h : tag = ""
    · simp [releaseStage, h] at hr
    · refine ⟨?_, h⟩
      by_cases hd : d
      · simp [releaseStage, h, hd] at hr
      · cases pt with
        | error e =>
          simp [releaseStage, h, hd] at hr
          simp [hr]
        | ok u =>
          simp [releaseStage, h, hd] at hr
          simp [hr]

/-- Witness for C7: the one publish attempt of a concrete real run carries the
non-empty tag `"v1"`. -/
theorem emptyTag_fatal_witness :
    ({ tagName := "v1", targetCommitish := "main", name := "v1",
       body := "* fix bug @alice\n* add test @bob\n" } : Release).tagName = "v1"
      ∧ ("v1" : String) ≠ "" :=
  (emptyTag_fatal "acme" "widget" "v1" "" false sampleRepository (.ok ())).2
    { tagName := "v1", targetCommitish := "main", name := "v1",
      body := "* fix bug @alice\n* add test @bob\n" } (by decide)

/-- C10: when pull-request resolution yields a non-positive number — 0 from an
empty lookup result or a negative explicitly supplied number — `main` fetches
no PR details, builds nothing, publishes nothing, prints nothing to standard
output, and exits with status 0. -/
theorem nonpositive_pr_noop (owner repo tag tc : String) (d : Bool)
    (explicitPR : Int) (prs : List PR) (fetchResult : Except String Repository)
    (pt : Except String Unit) (h : resolvePR explicitPR prs ≤ 0) :
    mainAfterResolution owner repo (resolvePR explicitPR prs) tag tc d fetchResult pt
      = { detailsFetched := false, publishes := [], built := none, stdout := "",
          fatalMsg := none } ∧
    exitCode (mainAfterResolution owner repo (resolvePR explicitPR prs) tag tc d
      fetchResult pt) = 0 := by
  have hnot : ¬ (0 < resolvePR explicitPR prs) := by omega
  constructor
  · simp [mainAfterResolution, hnot]
  · simp [mainAfterResolution, exitCode, hnot]

/-- Witness for C10 at a concrete non-positive resolution: explicit PR number
-3 (lookup skipped) leads to the empty, exit-0 outcome. -/
theorem nonpositive_pr_noop_witness :
    mainAfterResolution "acme" "widget" (resolvePR (-3) []) "v1" "" false
      (.ok sampleRepository) (.ok ())
      = { detailsFetched := false, publishes := [], built := none, stdout := "",
          fatalMsg := none } :=
  (nonpositive_pr_noop "acme" "widget" "v1" "" false (-3) [] (.ok sampleRepository)
    (.ok ()) (by decide)).1

/-- C6: the trigger read loop unblocks exactly on the first successfully read
message whose payload contains the repository name, after consuming every
earlier read — non-matching messages are discarded, read errors are silently
ignored — and its result never depends on anything past that message. -/
theorem readLoop_first_match (repo m : String) (pre post : List ReadResult)
    (hpre : ∀ x ∈ pre, ∀ payload, x = some payload →
      strContains payload repo = false)
    (hm : strContains m repo = true) :
    readLoop repo (pre ++ some m :: post) = some (pre.length + 1) := by
  induction pre with
  | nil => simp [readLoop, hm]
  | cons x rest ih =>
    have hrest : ∀ y ∈ rest, ∀ payload, y = some payload →
        strContains payload repo = false :=
      fun y hy => hpre y (List.mem_cons_of_mem x hy)
    have ihr := ih hrest
    cases x with
    | none => simp [readLoop, ihr]
    | some payload =>
      have hp := hpre (some payload) (List.mem_cons_self _ _) payload rfl
      simp [readLoop, hp, ihr]

/-- Witness for C6 at the spec's scenario: messages `"unrelated-repo v1"` then
`"widget v2"` with repoName `"widget"` consume exactly two reads. -/
theorem readLoop_first_match_witness :
    readLoop "widget" [some "unrelated-repo v1", some "widget v2"] = some 2 := by
  have h := readLoop_first_match "widget" "widget v2" [some "unrelated-repo v1"] []
    (by
      intro x hx payload hpx
      simp at hx
      subst hx
      injection hpx with h2
      subst h2
      decide)
    (by decide)
  simpa using h

/-- Counterexample to C8 as stated: at a concrete input where request
construction fails (`http.NewRequest` errors), `publishRelease` does not
return an error to its caller — it aborts the whole process via `log.Fatal` —
so "returns an error if ... request construction ... fails" is false. -/
theorem publishRelease_construction_counterexample :
    (publishRelease (.ok "tagbody") (.error "invalid URL")
      (.ok { statusCode := 200, body := "created" })).isErrorReturn = false ∧
    publishRelease (.ok "tagbody") (.error "invalid URL")
      (.ok { statusCode := 200, body := "created" })
      = PublishOutcome.fatalAbort "invalid URL" := by
  decide

/-- C8 amended: `publishRelease` returns an error to its caller exactly on a
marshalling failure or a connection (`client.Do`) failure; a
request-construction failure instead aborts the process fatally; and any
received response — regardless of status code or body, including service-side
validation errors such as a duplicate tag — is treated as success. -/
theorem publishRelease_spec (m : Except String String) (n : Except String Unit)
    (d : Except String HttpResponse) :
    (∀ e, m = .error e → publishRelease m n d = .errReturn e) ∧
    (∀ body e, m = .ok body → n = .error e →
      publishRelease m n d = .fatalAbort e) ∧
    (∀ body e, m = .ok body → n = .ok () → d = .error e →
      publishRelease m n d = .errReturn e) ∧
    (∀ body resp, m = .ok body → n = .ok () → d = .ok resp →
      publishRelease m n d = .success) := by
  refine ⟨?_, ?_, ?_, ?_⟩
  · intro e he
    subst he
    rfl
  · intro body e hm hn
    subst hm
    subst hn
    rfl
  · intro body e hm hn hd
    subst hm
    subst hn
    subst hd
    rfl
  · intro body resp hm hn hd
    subst hm
    subst hn
    subst hd
    rfl

/-- Witness for C8 (amended): a 422 duplicate-tag validation response from the
service is still treated as success. -/
theorem publishRelease_spec_witness :
    publishRelease (.ok "tagbody") (.ok ())
      (.ok { statusCode := 422, body := "Validation Failed: already_exists" })
      = PublishOutcome.success :=
  (publishRelease_spec (.ok "tagbody") (.ok ())
      (.ok { statusCode := 422, body := "Validation Failed: already_exists" })).2.2.2
    "tagbody" { statusCode := 422, body := "Validation Failed: already_exists" }
    rfl rfl rfl

end ReleaseChangelog
